import Mathlib

/-!
Shallow embedding of the investment-agent orchestrator
(`run_investment_cycle` in `src/main.py` and
`src/investment-agent/main.py`) together with the pieces of
`sheets_tool_advanced.py` it drives, and proofs of the spec claims
about the reasoning loop.

JSON values carried through the loop (model output, tool parameters,
spreadsheet cells) are modelled by `JValue`, with numbers as rationals.
External collaborators (the Grok completion endpoint, `json.loads`,
the wall clock, search/price providers) are modelled as oracles in an
environment record, exactly as the spec treats them: interfaces the
core calls but does not look into.
-/

/-- JSON-like values: the data carried in model responses, tool
parameters and spreadsheet cells.  Numbers are rationals. -/
inductive JValue where
  | jnull : JValue
  | jbool : Bool → JValue
  | jnum : Rat → JValue
  | jstr : String → JValue
  | jarr : List JValue → JValue
  | jobj : List (String × JValue) → JValue

/-- Association-list lookup (Python `dict` lookup by key). -/
def lookupA : List (String × JValue) → String → Option JValue
  | [], _ => none
  | (k, v) :: t, key => if k = key then some v else lookupA t key

/-- Association-list update: replace the binding of a key, or append it
(the spreadsheet-cell map update). -/
def setAssoc : List (String × JValue) → String → JValue → List (String × JValue)
  | [], key, v => [(key, v)]
  | (k, w) :: t, key, v => if k = key then (key, v) :: t else (k, w) :: setAssoc t key v

/-- Rendering of a rational number (stands in for Python float repr). -/
def ratToString (q : Rat) : String :=
  if q.den = 1 then toString q.num else toString q.num ++ "/" ++ toString q.den

/-- Python truthiness (`if not x`): `None`, `False`, `0`, `""`, `[]`,
`{}` are falsy, everything else truthy. -/
def truthy : JValue → Bool
  | JValue.jnull => false
  | JValue.jbool b => b
  | JValue.jnum q => decide (q ≠ 0)
  | JValue.jstr s => decide (s ≠ "")
  | JValue.jarr [] => false
  | JValue.jarr (_ :: _) => true
  | JValue.jobj [] => false
  | JValue.jobj (_ :: _) => true

/-- `x == "lit"` in Python: equal only when `x` is that string. -/
def isStr (v : JValue) (s : String) : Bool :=
  match v with
  | JValue.jstr t => decide (t = s)
  | _ => false

/-- Python `str.upper` (ASCII view, which covers every use here). -/
def upper (s : String) : String := String.mk (s.data.map Char.toUpper)

/-- Insertion into a key-sorted list of rendered fields. -/
def insPair (p : String × String) : List (String × String) → List (String × String)
  | [] => [p]
  | q :: t => if p.fst ≤ q.fst then p :: q :: t else q :: insPair p t

/-- Insertion sort of rendered fields by key (`sort_keys=True`). -/
def sortPairs : List (String × String) → List (String × String)
  | [] => []
  | p :: t => insPair p (sortPairs t)

/-- Orders rendered fields when `sort_keys=True` is requested. -/
def orderPairs (sk : Bool) (ps : List (String × String)) : List (String × String) :=
  if sk then sortPairs ps else ps

/-- Joins rendered fields as `"key": value` with comma separators. -/
def joinPairs : List (String × String) → String
  | [] => ""
  | [(k, v)] => "\"" ++ k ++ "\": " ++ v
  | (k, v) :: q :: t => "\"" ++ k ++ "\": " ++ v ++ ", " ++ joinPairs (q :: t)

mutual

/-- `json.dumps` (stands in for the canonical serialisation used in
action signatures; `sk = true` is `sort_keys=True`). -/
def jdumps (sk : Bool) : JValue → String
  | JValue.jnull => "null"
  | JValue.jbool true => "true"
  | JValue.jbool false => "false"
  | JValue.jnum q => ratToString q
  | JValue.jstr s => "\"" ++ s ++ "\""
  | JValue.jarr xs => "[" ++ jdumpsArr sk xs ++ "]"
  | JValue.jobj fs => "\x7b" ++ joinPairs (orderPairs sk (jdumpsObj sk fs)) ++ "\x7d"

/-- Renders a list of JSON values, comma separated. -/
def jdumpsArr (sk : Bool) : List JValue → String
  | [] => ""
  | [x] => jdumps sk x
  | x :: y :: t => jdumps sk x ++ ", " ++ jdumpsArr sk (y :: t)

/-- Renders each object field to `(key, rendered value)`. -/
def jdumpsObj (sk : Bool) : List (String × JValue) → List (String × String)
  | [] => []
  | (k, v) :: t => (k, jdumps sk v) :: jdumpsObj sk t

end

mutual

/-- Python `repr` of a value (used inside containers by `str`). -/
def pyRepr : JValue → String
  | JValue.jnull => "None"
  | JValue.jbool true => "True"
  | JValue.jbool false => "False"
  | JValue.jnum q => ratToString q
  | JValue.jstr s => "\x27" ++ s ++ "\x27"
  | JValue.jarr xs => "[" ++ pyReprArr xs ++ "]"
  | JValue.jobj fs => "\x7b" ++ pyReprObj fs ++ "\x7d"

/-- `repr` of list elements, comma separated. -/
def pyReprArr : List JValue → String
  | [] => ""
  | [x] => pyRepr x
  | x :: y :: t => pyRepr x ++ ", " ++ pyReprArr (y :: t)

/-- `repr` of dict entries, comma separated. -/
def pyReprObj : List (String × JValue) → String
  | [] => ""
  | [(k, v)] => "\x27" ++ k ++ "\x27: " ++ pyRepr v
  | (k, v) :: q :: t => "\x27" ++ k ++ "\x27: " ++ pyRepr v ++ ", " ++ pyReprObj (q :: t)

end

/-- Python `str()` as used in f-strings and `str(observation)`. -/
def pyStr : JValue → String
  | JValue.jstr s => s
  | v => pyRepr v

/-- Digits to a natural number (helper for numeric-string parsing). -/
def natFromDigits (cs : List Char) : Nat :=
  cs.foldl (fun a c => a * 10 + (c.toNat - '0'.toNat)) 0

/-- Python `float(string)`: optional sign, digits, optional fraction
part.  `none` models `ValueError`. -/
def parseFloatStr (s : String) : Option Rat :=
  let cs := (s.toList.dropWhile Char.isWhitespace).reverse.dropWhile Char.isWhitespace |>.reverse
  let (sign, cs) : Rat × List Char :=
    match cs with
    | '-' :: t => (-1, t)
    | '+' :: t => (1, t)
    | t => (1, t)
  let ip := cs.takeWhile Char.isDigit
  let rest := cs.dropWhile Char.isDigit
  match rest with
  | [] => if ip.isEmpty then none else some (sign * natFromDigits ip)
  | '.' :: fp =>
    if fp.all Char.isDigit ∧ (ip ≠ [] ∨ fp ≠ []) then
      some (sign * ((natFromDigits ip : Rat) + (natFromDigits fp : Rat) / (10 : Rat) ^ fp.length))
    else none
  | _ => none

/-- Python `float(x)` on a JSON value (`bool` is an `int` subtype). -/
def pyFloat : JValue → Option Rat
  | JValue.jnum q => some q
  | JValue.jbool b => some (if b then 1 else 0)
  | JValue.jstr s => parseFloatStr s
  | _ => none

/-- `clean_and_convert_to_float`: numbers pass through, everything else
is stringified, `$`/`,` characters removed, and parsed as a float. -/
def cleanFloat (v : JValue) : Option Rat :=
  match v with
  | JValue.jnum q => some q
  | JValue.jbool b => some (if b then 1 else 0)
  | w => parseFloatStr (String.mk ((pyStr w).toList.filter fun c => c ≠ '$' ∧ c ≠ ','))

/-- Comma grouping of a reversed digit list (helper for `fmtMoney`). -/
def revGroup : Nat → List Char → List Char
  | _, [] => []
  | k, c :: t => if k = 3 then ',' :: c :: revGroup 1 t else c :: revGroup (k + 1) t

/-- Thousands grouping of a digit string. -/
def group3 (s : String) : String :=
  String.mk ((revGroup 0 s.toList.reverse).reverse)

/-- Python `f"{v:,.2f}"`: two decimals with thousands separators. -/
def fmtMoney (q : Rat) : String :=
  let a : Rat := |q|
  let cents : Nat := (a * 100 + 1 / 2).floor.toNat
  let ip := cents / 100
  let fp := cents % 100
  (if q < 0 then "-" else "") ++ group3 (toString ip) ++ "." ++
    (if fp < 10 then "0" ++ toString fp else toString fp)

/-- The DOTALL brace-matching search of the fallback decode path: the leftmost `{` that
has a `}` after it, matched greedily to the last `}` of the text. -/
def extractFragment (t : String) : Option String :=
  let cs := t.toList
  let closes := (List.range cs.length).filter fun j => cs.getD j 'x' = '}'
  match closes.getLast? with
  | none => none
  | some q =>
    let opens := (List.range q).filter fun i => cs.getD i 'x' = '{'
    match opens.head? with
    | none => none
    | some p => some (String.mk ((cs.drop p).take (q - p + 1)))

/-!
## Data model of one cycle (investment-agent orchestrator)
-/

/-- One row appended to the `Transactions_OSV` tab by
`SheetsTool.log_transaction` (the fields the orchestrator passes;
the date and derived formula columns are spreadsheet-side). -/
structure Tx where
  symbol : JValue
  action : String
  quantity : Rat
  price : Rat
  rationale : JValue

/-- The ledger collaborator: single cells addressed by `Sheet!A1`
notation, range reads, and the append-only transaction log. -/
structure Ledger where
  cells : List (String × JValue)
  ranges : List (String × JValue)
  transactions : List Tx

/-- Observable events of one cycle, in order of occurrence. -/
inductive Event where
  | modelCall : Nat → Event
  | dispatched : JValue → JValue → Event
  | txLogged : Tx → Event
  | cellWrite : String → JValue → Event
  | committed : String → Event

/-- Mutable loop state of `run_investment_cycle`
(investment-agent variant). -/
structure St where
  ledger : Ledger
  history : String
  consec : Nat
  i : Nat
  trace : List Event

/-- What one loop iteration does to control flow: `ret` is a `return`
from the function, `exn` an uncaught Python exception, `cont` a
`continue`/fallthrough to the next iteration, `brk` a `break`. -/
inductive StepKind where
  | ret : String × Nat → StepKind
  | exn : String → StepKind
  | cont : StepKind
  | brk : StepKind

/-- Result of an external (non-spreadsheet) tool handler: a returned
value or a raised exception message. -/
inductive ExtRes where
  | ok : JValue → ExtRes
  | raise : String → ExtRes

/-- The external collaborators of one cycle, as oracles:
`responses n` is what `call_grok_api` returns for the `n`-th loop
iteration (`none` models a falsy/failed response), `jloads` is
`json.loads` (`none` models `JSONDecodeError`), `elapsed n` is
`time.time() - start_time` at the top of iteration `n`, and `ext`
runs the non-spreadsheet tool handlers (web search, price lookups,
transaction history). -/
structure Env where
  responses : Nat → Option String
  jloads : String → Option JValue
  elapsed : Nat → Rat
  ext : String → JValue → ExtRes

/-- `CASH_ON_HAND_CELL` from the source configuration. -/
def CASH_ON_HAND_CELL : String := "Portfolio Summary!B3"

/-- `MAX_FUNCTION_RUNTIME` (seconds) from the source configuration. -/
def MAX_FUNCTION_RUNTIME : Rat := 540

/-!
## Response parsing (lines 513-526 of the investment-agent source)
-/

/-- The fields the orchestrator extracts from a decoded response:
`thought`, `action.tool_name` (null when absent) and
`action.parameters` (empty object when absent). -/
structure Parsed where
  thought : JValue
  tool_name : JValue
  params : JValue

/-- Field extraction from the decoded response object.  Any non-dict
shape where Python would call `.get` raises and is a parse failure. -/
def extractFields : JValue → Except Unit Parsed
  | JValue.jobj fs =>
    match (lookupA fs "action").getD (JValue.jobj []) with
    | JValue.jobj afs =>
      Except.ok
        { thought := (lookupA fs "thought").getD (JValue.jstr "No analysis provided")
          tool_name := (lookupA afs "tool_name").getD JValue.jnull
          params := (lookupA afs "parameters").getD (JValue.jobj []) }
    | _ => Except.error ()
  | _ => Except.error ()

/-- Strict decode first; on `JSONDecodeError` locate an embedded
brace-delimited fragment and decode that; otherwise no JSON found. -/
def decodeJson (jl : String → Option JValue) (t : String) : Option JValue :=
  match jl t with
  | some v => some v
  | none =>
    match extractFragment t with
    | some frag => jl frag
    | none => none

/-- The whole parse step of the investment-agent loop body: decode,
then extract fields; `Except.error` is a parse failure counted by the
error streak. -/
def parseDecision (jl : String → Option JValue) (t : String) : Except Unit Parsed :=
  match decodeJson jl t with
  | some v => extractFields v
  | none => Except.error ()

/-!
## Tool dispatch (investment-agent `tool_handlers`, lines 472-485,
579-589)
-/

/-- The keys of the `tool_handlers` registry. -/
def registryKeys : List String :=
  ["web_search", "get_current_stock_price", "validate_stock_price",
   "get_multiple_stock_prices", "get_stock_price_history",
   "analyze_portfolio_performance", "find_trending_stocks",
   "check_major_bank_ratings", "get_stock_transaction_history",
   "sheets_get_cell_value", "sheets_get_range_values",
   "sheets_update_cell_value"]

/-- Splitting a cell reference at `!` unpacks into exactly two parts. -/
def splitOk (s : String) : Bool :=
  decide ((s.toList.filter fun c => c = '!').length = 1)

/-- The body of one registered handler, before the guarding
`try`/`except` of the orchestrator: spreadsheet handlers act on the ledger (with the
keyword-splat and notation-split failure modes of the source), all
other handlers go to the external collaborators.  `Except.error` is a
raised exception. -/
def handlerRun (env : Env) (l : Ledger) (tool : String) (p : JValue) :
    Except String (Ledger × JValue) :=
  if tool = "sheets_get_cell_value" then
    match p with
    | JValue.jobj [(k, v)] =>
      if k = "cell_notation" then
        match v with
        | JValue.jstr nota =>
          if splitOk nota then Except.ok (l, (lookupA l.cells nota).getD JValue.jnull)
          else Except.error "ValueError: split"
        | _ => Except.error "AttributeError: split"
      else Except.error "TypeError: unexpected keyword argument"
    | _ => Except.error "TypeError: argument unpacking"
  else if tool = "sheets_update_cell_value" then
    match p with
    | JValue.jobj fs =>
      if fs.map Prod.fst = ["cell_notation", "value"] ∨
          fs.map Prod.fst = ["value", "cell_notation"] then
        match lookupA fs "cell_notation", lookupA fs "value" with
        | some (JValue.jstr nota), some v =>
          if splitOk nota then
            Except.ok ({ l with cells := setAssoc l.cells nota v },
              JValue.jstr ("Successfully updated " ++ nota ++ "."))
          else Except.error "ValueError: split"
        | _, _ => Except.error "AttributeError: split"
      else Except.error "TypeError: argument unpacking"
    | _ => Except.error "TypeError: argument unpacking"
  else if tool = "sheets_get_range_values" then
    match p with
    | JValue.jobj [(k, v)] =>
      if k = "range_notation" then
        match v with
        | JValue.jstr nota =>
          if splitOk nota then Except.ok (l, (lookupA l.ranges nota).getD (JValue.jarr []))
          else Except.error "ValueError: split"
        | _ => Except.error "AttributeError: split"
      else Except.error "TypeError: unexpected keyword argument"
    | _ => Except.error "TypeError: argument unpacking"
  else
    match env.ext tool p with
    | ExtRes.ok v => Except.ok (l, v)
    | ExtRes.raise m => Except.error m

/-- The `try`/`except` around a registered handler: a raised exception
becomes the `Error executing ...` observation and never propagates. -/
def dispatch2 (env : Env) (l : Ledger) (tool : String) (p : JValue) : Ledger × JValue :=
  match handlerRun env l tool p with
  | Except.ok r => r
  | Except.error e => (l, JValue.jstr ("Error executing " ++ tool ++ ": " ++ e))

/-- `tool_name in tool_handlers` (false for any non-string). -/
def isRegistryTool : JValue → Bool
  | JValue.jstr s => registryKeys.contains s
  | _ => false

/-- Full dispatch of a non-terminal action: registered handlers run
guarded, anything else yields the `Unknown tool` observation. -/
def dispatchObs (env : Env) (l : Ledger) (toolJ p : JValue) : Ledger × JValue :=
  match toolJ with
  | JValue.jstr tool =>
    if registryKeys.contains tool then dispatch2 env l tool p
    else (l, JValue.jstr ("Unknown tool \x27" ++ tool ++ "\x27."))
  | t => (l, JValue.jstr ("Unknown tool \x27" ++ pyStr t ++ "\x27."))

/-!
## One loop iteration (investment-agent `run_investment_cycle` body)
-/

/-- Falsy Grok response (lines 505-509): bump the error streak,
terminate at the ceiling, otherwise `continue`. -/
def respFail (s : St) : St × StepKind :=
  if s.consec + 1 ≥ 3 then
    ({ s with consec := s.consec + 1 },
      StepKind.ret ("Emergency HOLD decision due to API errors.", 200))
  else ({ s with consec := s.consec + 1, i := s.i + 1 }, StepKind.cont)

/-- Parse failure (lines 533-539): bump the error streak, terminate at
the ceiling, otherwise record an observation and `continue`. -/
def parseFail (s : St) : St × StepKind :=
  if s.consec + 1 ≥ 3 then
    ({ s with consec := s.consec + 1 },
      StepKind.ret ("Emergency HOLD decision due to parsing errors.", 200))
  else
    ({ s with
        consec := s.consec + 1
        i := s.i + 1
        history := s.history ++ "\nObservation: Grok response error. Trying different approach." },
      StepKind.cont)

/-- The `final_decision` branch (lines 548-577): funds-sufficiency
check for BUY, then commit (log transaction, update the cash cell,
return) or HOLD commit.  `cash0` is the cash read once at cycle
initialisation, which is what the source compares against. -/
def handleFinal (cash0 : Rat) (s : St) (d : Parsed) : St × StepKind :=
  match d.params with
  | JValue.jobj fs =>
    match (lookupA fs "action").getD (JValue.jstr "HOLD") with
    | JValue.jstr araw =>
      let action := upper araw
      let rationale := (lookupA fs "rationale").getD (JValue.jstr "No rationale provided.")
      if action = "BUY" ∨ action = "SELL" then
        match pyFloat ((lookupA fs "quantity").getD (JValue.jnum 0)),
            pyFloat ((lookupA fs "target_price").getD (JValue.jnum 0)) with
        | some q, some pr =>
          let tv := q * pr
          if action = "BUY" ∧ tv > cash0 then
            let obs := "INSUFFICIENT FUNDS. Cannot execute BUY order of $" ++ fmtMoney tv ++
              " with only $" ++ fmtMoney cash0 ++ " available."
            ({ s with
                history := s.history ++ "\nThought: " ++ pyStr d.thought ++
                  "\nAction: " ++ pyStr d.tool_name ++ "\nObservation: " ++ obs
                i := s.i + 1 },
              StepKind.cont)
          else
            let t : Tx := ⟨(lookupA fs "symbol").getD JValue.jnull, action, q, pr, rationale⟩
            let newCash := if action = "BUY" then cash0 - tv else cash0 + tv
            ({ s with
                ledger := { s.ledger with
                    transactions := s.ledger.transactions ++ [t]
                    cells := setAssoc s.ledger.cells CASH_ON_HAND_CELL (JValue.jnum newCash) }
                trace := s.trace ++ [Event.txLogged t,
                  Event.cellWrite CASH_ON_HAND_CELL (JValue.jnum newCash),
                  Event.committed action] },
              StepKind.ret ("Investment cycle completed.", 200))
        | _, _ => (s, StepKind.exn "ValueError: float")
      else
        ({ s with trace := s.trace ++ [Event.committed action] },
          StepKind.ret ("Investment cycle completed.", 200))
    | _ => (s, StepKind.exn "AttributeError: upper")
  | _ => (s, StepKind.exn "AttributeError: get")

/-- What happens after a successfully parsed decision (lines 541-589):
null tool breaks, the last-step guard forces a HOLD, `final_decision`
is handled, anything else is dispatched and the loop continues. -/
def actOn (env : Env) (cash0 : Rat) (s : St) (d : Parsed) : St × StepKind :=
  if truthy d.tool_name = false then (s, StepKind.brk)
  else if 5 ≤ s.i ∧ isStr d.tool_name "final_decision" = false then
    (s, StepKind.ret ("HOLD decision made - analysis complete.", 200))
  else if isStr d.tool_name "final_decision" then handleFinal cash0 s d
  else
    let r := dispatchObs env s.ledger d.tool_name d.params
    ({ s with
        ledger := r.1
        trace := s.trace ++ [Event.dispatched d.tool_name d.params]
        history := s.history ++ "\nThought: " ++ pyStr d.thought ++
          "\nAction: " ++ pyStr d.tool_name ++ "\nObservation: " ++ pyStr r.2
        i := s.i + 1 },
      StepKind.cont)

/-- One full iteration of the investment-agent loop: deadline guard,
model call, parse (with the error streak), then act. -/
def iter2 (env : Env) (cash0 : Rat) (s : St) : St × StepKind :=
  if env.elapsed s.i > MAX_FUNCTION_RUNTIME then
    (s, StepKind.ret ("Emergency HOLD decision due to timeout.", 200))
  else
    let s1 : St := { s with trace := s.trace ++ [Event.modelCall s.i] }
    match env.responses s.i with
    | none => respFail s1
    | some t =>
      if t = "" then respFail s1
      else
        match parseDecision env.jloads t with
        | Except.error _ => parseFail s1
        | Except.ok d => actOn env cash0 { s1 with consec := 0 } d

/-- The `for i in range(MAX_REASONING_STEPS)` loop: `fuel` is the
number of remaining iterations; exhaustion and `break` both fall
through to the max-steps return.  The `Except.error` outcome is an
uncaught Python exception escaping the function. -/
def loop2 (env : Env) (cash0 : Rat) : Nat → St → St × Except String (String × Nat)
  | 0, s => (s, Except.ok ("Cycle ended due to max steps.", 200))
  | fuel + 1, s =>
    match iter2 env cash0 s with
    | (s2, StepKind.ret r) => (s2, Except.ok r)
    | (s2, StepKind.exn e) => (s2, Except.error e)
    | (s2, StepKind.brk) => (s2, Except.ok ("Cycle ended due to max steps.", 200))
    | (s2, StepKind.cont) => loop2 env cash0 fuel s2

/-- Initial cash read: `get_cell_value(CASH_ON_HAND_CELL)` (empty cell
reads as `None`), then `clean_and_convert_to_float`; `none` is the
fatal precondition failure. -/
def initCash (l : Ledger) : Option Rat :=
  cleanFloat ((lookupA l.cells CASH_ON_HAND_CELL).getD JValue.jnull)

/-- Final result of one cycle: the state at termination plus the HTTP
outcome (`Except.error` = uncaught exception). -/
structure CycleResult where
  st : St
  outcome : Except String (String × Nat)

/-- `run_investment_cycle` (investment-agent variant): read the cash
precondition, then drive up to `MAX_REASONING_STEPS = 6` iterations. -/
def run2 (env : Env) (l0 : Ledger) : CycleResult :=
  match initCash l0 with
  | none =>
    ⟨⟨l0, "", 0, 0, []⟩, Except.ok ("Could not read initial state from sheet.", 500)⟩
  | some cash0 =>
    let h0 := "Cycle started with $" ++ fmtMoney cash0 ++ " cash."
    let r := loop2 env cash0 6 ⟨l0, h0, 0, 0, []⟩
    ⟨r.1, r.2⟩

/-!
## The first-generation orchestrator (`src/main.py`)

Same shape, but: 5 reasoning steps, no deadline or error-streak
guard, hard-coded fallback decisions on empty/undecodable responses,
a repetition guard over the last 3 action signatures, unguarded
spreadsheet dispatch, and history entries that include the serialised
parameters.
-/

/-- Mutable loop state of the first-generation loop
(`recent_actions` is the repetition-guard buffer). -/
structure St1 where
  ledger : Ledger
  history : String
  recent : List String
  i : Nat
  trace : List Event

/-- External collaborators of the first-generation loop
(`websearch` is `execute_web_search`, which never raises). -/
structure Env1 where
  responses : Nat → Option String
  jloads : String → Option JValue
  websearch : JValue → String
  visible : String

/-- Outcome of the response-acquisition phase: either a decision to
act on (parsed or fallback) or the `continue` of the generic
exception handler. -/
inductive D1 where
  | generic : D1
  | dec : Parsed → D1

/-- Fallback decision for an empty model response (lines 230-244):
read a reference cell on step 0, final HOLD afterwards. -/
def fallbackEmpty (i : Nat) : Parsed :=
  if i = 0 then
    { thought := JValue.jstr "Starting analysis by examining reference information"
      tool_name := JValue.jstr "sheets_get_cell_value"
      params := JValue.jobj [("cell_notation", JValue.jstr "Stock_Ref!A1")] }
  else
    { thought := JValue.jstr "Completing investment analysis"
      tool_name := JValue.jstr "final_decision"
      params := JValue.jobj [("action", JValue.jstr "HOLD"), ("symbol", JValue.jnull),
        ("quantity", JValue.jnum 0), ("target_price", JValue.jnull),
        ("rationale", JValue.jstr "Analysis completed based on available information")] }

/-- Fallback decision on `JSONDecodeError` (lines 258-274). -/
def fallbackDecode (i : Nat) : Parsed :=
  if i = 0 then
    { thought := JValue.jstr "Accessing reference data due to parsing error"
      tool_name := JValue.jstr "sheets_get_cell_value"
      params := JValue.jobj [("cell_notation", JValue.jstr "Stock_Ref!A1")] }
  else
    { thought := JValue.jstr "Concluding investment analysis due to parsing limitations"
      tool_name := JValue.jstr "final_decision"
      params := JValue.jobj [("action", JValue.jstr "HOLD"), ("symbol", JValue.jstr "N/A"),
        ("quantity", JValue.jnum 0), ("target_price", JValue.jnum 0),
        ("rationale", JValue.jstr
          "Investment analysis completed, maintaining current positions due to parsing limitations")] }

/-- The `try`/`except` block of lines 226-278: falsy response uses the
empty-response fallback, `JSONDecodeError` the decode fallback, any
other extraction error lands in the generic handler. -/
def getDecision1 (env : Env1) (i : Nat) : D1 :=
  match env.responses i with
  | none => D1.dec (fallbackEmpty i)
  | some t =>
    if t = "" then D1.dec (fallbackEmpty i)
    else
      match env.jloads t with
      | none => D1.dec (fallbackDecode i)
      | some v =>
        match extractFields v with
        | Except.error _ => D1.generic
        | Except.ok d => D1.dec d

/-- `f"{tool_name}({json.dumps(parameters, sort_keys=True)})"`. -/
def sig1 (d : Parsed) : String :=
  pyStr d.tool_name ++ "(" ++ jdumps true d.params ++ ")"

/-- `recent_actions.append(...)` followed by `pop(0)` past capacity 3. -/
def trimRecent (l : List String) : List String :=
  if l.length > 3 then l.drop 1 else l

/-- `len(set(recent_actions)) == 1`. -/
def allSame : List String → Bool
  | [] => false
  | x :: t => t.all fun y => y = x

/-- The loop-detected observation appended by lines 290-293. -/
def loopMsg : String :=
  "\nObservation: Loop detected - you are repeating the same action. Please try a different approach or make a final_decision."

/-- Python `dict.get(key, default)`, raising on a non-dict receiver. -/
def pyGetD (p : JValue) (k : String) (dflt : JValue) : Except String JValue :=
  match p with
  | JValue.jobj fs => Except.ok ((lookupA fs k).getD dflt)
  | _ => Except.error "AttributeError: get"

/-- `SheetsTool.get_cell_value(**parameters)` of the first-generation
sheets tool: keyword unpacking, notation split, then the cell read
(`None` for an empty cell).  Errors are raised exceptions. -/
def sheetGet1 (l : Ledger) (p : JValue) : Except String JValue :=
  match p with
  | JValue.jobj [(k, v)] =>
    if k = "cell_notation" then
      match v with
      | JValue.jstr nota =>
        if splitOk nota then Except.ok ((lookupA l.cells nota).getD JValue.jnull)
        else Except.error "ValueError: split"
      | _ => Except.error "AttributeError: split"
    else Except.error "TypeError: unexpected keyword argument"
  | _ => Except.error "TypeError: argument unpacking"

/-- `SheetsTool.update_cell_value(**parameters)`: keyword unpacking,
notation split, then the cell write and success message. -/
def sheetUpd1 (l : Ledger) (p : JValue) : Except String (Ledger × JValue) :=
  match p with
  | JValue.jobj fs =>
    if fs.map Prod.fst = ["cell_notation", "value"] ∨
        fs.map Prod.fst = ["value", "cell_notation"] then
      match lookupA fs "cell_notation", lookupA fs "value" with
      | some (JValue.jstr nota), some v =>
        if splitOk nota then
          Except.ok ({ l with cells := setAssoc l.cells nota v },
            JValue.jstr ("Successfully updated " ++ nota ++ "."))
        else Except.error "ValueError: split"
      | _, _ => Except.error "AttributeError: split"
    else Except.error "TypeError: argument unpacking"
  | _ => Except.error "TypeError: argument unpacking"

/-- History entry of the first-generation loop (lines 309 and 338):
the action part carries the serialised parameters. -/
def histEntry1 (d : Parsed) (obs : String) : String :=
  "\nThought: " ++ pyStr d.thought ++ "\nAction: " ++ pyStr d.tool_name ++
    "(" ++ jdumps false d.params ++ ")\nObservation: " ++ obs

/-- The `final_decision` branch of the first-generation loop
(lines 296-326): identical business rule, different rationale default
and history format. -/
def handleFinal1 (cash0 : Rat) (s : St1) (d : Parsed) : St1 × StepKind :=
  match d.params with
  | JValue.jobj fs =>
    match (lookupA fs "action").getD (JValue.jstr "HOLD") with
    | JValue.jstr araw =>
      let action := upper araw
      let rationale := (lookupA fs "rationale").getD
        (JValue.jstr "No investment rationale provided.")
      if action = "BUY" ∨ action = "SELL" then
        match pyFloat ((lookupA fs "quantity").getD (JValue.jnum 0)),
            pyFloat ((lookupA fs "target_price").getD (JValue.jnum 0)) with
        | some q, some pr =>
          let tv := q * pr
          if action = "BUY" ∧ tv > cash0 then
            let obs := "INSUFFICIENT FUNDS. Cannot execute BUY order of $" ++ fmtMoney tv ++
              " with only $" ++ fmtMoney cash0 ++ " available."
            ({ s with history := s.history ++ histEntry1 d obs, i := s.i + 1 },
              StepKind.cont)
          else
            let t : Tx := ⟨(lookupA fs "symbol").getD JValue.jnull, action, q, pr, rationale⟩
            let newCash := if action = "BUY" then cash0 - tv else cash0 + tv
            ({ s with
                ledger := { s.ledger with
                    transactions := s.ledger.transactions ++ [t]
                    cells := setAssoc s.ledger.cells CASH_ON_HAND_CELL (JValue.jnum newCash) }
                trace := s.trace ++ [Event.txLogged t,
                  Event.cellWrite CASH_ON_HAND_CELL (JValue.jnum newCash),
                  Event.committed action] },
              StepKind.ret ("Investment cycle completed.", 200))
        | _, _ => (s, StepKind.exn "ValueError: float")
      else
        ({ s with trace := s.trace ++ [Event.committed action] },
          StepKind.ret ("Investment cycle completed.", 200))
    | _ => (s, StepKind.exn "AttributeError: upper")
  | _ => (s, StepKind.exn "AttributeError: get")

/-- Dispatch of a non-terminal action in the first-generation loop
(lines 328-338): spreadsheet calls are unguarded (a raised exception
escapes the function), web search never raises, anything else is the
`Unknown tool` observation. -/
def dispatch1 (env : Env1) (s : St1) (d : Parsed) : St1 × StepKind :=
  let contWith : Ledger → JValue → St1 × StepKind := fun l2 obs =>
    ({ s with
        ledger := l2
        trace := s.trace ++ [Event.dispatched d.tool_name d.params]
        history := s.history ++ histEntry1 d (pyStr obs)
        i := s.i + 1 },
      StepKind.cont)
  if isStr d.tool_name "sheets_get_cell_value" then
    match sheetGet1 s.ledger d.params with
    | Except.error e => (s, StepKind.exn e)
    | Except.ok obs => contWith s.ledger obs
  else if isStr d.tool_name "sheets_update_cell_value" then
    match sheetUpd1 s.ledger d.params with
    | Except.error e => (s, StepKind.exn e)
    | Except.ok r => contWith r.1 r.2
  else if isStr d.tool_name "web_search" then
    match pyGetD d.params "query" (JValue.jstr "") with
    | Except.error e => (s, StepKind.exn e)
    | Except.ok qv => contWith s.ledger (JValue.jstr (env.websearch qv))
  else
    contWith s.ledger (JValue.jstr ("Unknown tool \x27" ++ pyStr d.tool_name ++
      "\x27. Available tools: sheets_get_cell_value, sheets_update_cell_value, web_search, final_decision"))

/-- Acting on a decision in the first-generation loop: null tool
breaks; the action signature is recorded and the repetition guard
(lines 284-293) merely appends an observation and continues; then the
terminal branch or dispatch. -/
def act1 (env : Env1) (cash0 : Rat) (s : St1) (d : Parsed) : St1 × StepKind :=
  if truthy d.tool_name = false then (s, StepKind.brk)
  else
    let rec2 := trimRecent (s.recent ++ [sig1 d])
    let s2 := { s with recent := rec2 }
    if 3 ≤ rec2.length ∧ allSame rec2 = true then
      ({ s2 with history := s2.history ++ loopMsg, i := s2.i + 1 }, StepKind.cont)
    else if isStr d.tool_name "final_decision" then handleFinal1 cash0 s2 d
    else dispatch1 env s2 d

/-- One full iteration of the first-generation loop. -/
def iter1 (env : Env1) (cash0 : Rat) (s : St1) : St1 × StepKind :=
  let s1 : St1 := { s with trace := s.trace ++ [Event.modelCall s.i] }
  match getDecision1 env s.i with
  | D1.generic =>
    ({ s1 with
        history := s1.history ++ "\nObservation: API error. Trying fallback approach."
        i := s1.i + 1 },
      StepKind.cont)
  | D1.dec d => act1 env cash0 s1 d

/-- The `for i in range(MAX_REASONING_STEPS)` loop of the
first-generation orchestrator (5 steps). -/
def loop1 (env : Env1) (cash0 : Rat) : Nat → St1 → St1 × Except String (String × Nat)
  | 0, s => (s, Except.ok ("Cycle ended due to max steps.", 200))
  | fuel + 1, s =>
    match iter1 env cash0 s with
    | (s2, StepKind.ret r) => (s2, Except.ok r)
    | (s2, StepKind.exn e) => (s2, Except.error e)
    | (s2, StepKind.brk) => (s2, Except.ok ("Cycle ended due to max steps.", 200))
    | (s2, StepKind.cont) => loop1 env cash0 fuel s2

/-- Final result of one first-generation cycle. -/
structure CycleResult1 where
  st : St1
  outcome : Except String (String × Nat)

/-- `run_investment_cycle` (first-generation variant). -/
def run1 (env : Env1) (l0 : Ledger) : CycleResult1 :=
  match initCash l0 with
  | none =>
    ⟨⟨l0, "", [], 0, []⟩, Except.ok ("Could not read initial state from sheet.", 500)⟩
  | some cash0 =>
    let h0 := "Observation: Cycle started with $" ++ fmtMoney cash0 ++
      " cash. Visible sheets are: " ++ env.visible
    let r := loop1 env cash0 5 ⟨l0, h0, [], 0, []⟩
    ⟨r.1, r.2⟩

/-!
## Trace predicates
-/

/-- Is an event a decision commit? -/
def isCommit : Event → Bool
  | Event.committed _ => true
  | _ => false

/-- Is an event a model call? -/
def isCall : Event → Bool
  | Event.modelCall _ => true
  | _ => false

/-- Is an event a tool dispatch? -/
def isDispatch : Event → Bool
  | Event.dispatched _ _ => true
  | _ => false

/-- Number of model calls recorded in a trace. -/
def countCalls (tr : List Event) : Nat := (tr.filter isCall).length

/-- Number of dispatches recorded in a trace. -/
def countDispatches (tr : List Event) : Nat := (tr.filter isDispatch).length

/-- No commit event occurs in the trace. -/
def commitFree (tr : List Event) : Prop := ∀ e ∈ tr, isCommit e = false

/-- At most one commit, and when there is one it is the very last
event of the cycle (nothing is dispatched, called or written after
it). -/
def goodTrace (tr : List Event) : Prop :=
  commitFree tr ∨ ∃ pre a, tr = pre ++ [Event.committed a] ∧ commitFree pre

/-!
## Shared decision shapes and parse lemmas
-/

/-- The parameter object of a `final_decision` in the JSON shape the
prompt requests. -/
def fdParams (act sym : String) (q pr : Rat) (rat : String) : JValue :=
  JValue.jobj [("action", JValue.jstr act), ("symbol", JValue.jstr sym),
    ("quantity", JValue.jnum q), ("target_price", JValue.jnum pr),
    ("rationale", JValue.jstr rat)]

/-- A decoded model response choosing `final_decision`. -/
def fdObj (act sym : String) (q pr : Rat) (rat th : String) : JValue :=
  JValue.jobj [("thought", JValue.jstr th),
    ("action", JValue.jobj [("tool_name", JValue.jstr "final_decision"),
      ("parameters", fdParams act sym q pr rat)])]

/-- A decoded model response choosing an arbitrary tool. -/
def toolObj (tool : String) (p : JValue) (th : String) : JValue :=
  JValue.jobj [("thought", JValue.jstr th),
    ("action", JValue.jobj [("tool_name", JValue.jstr tool), ("parameters", p)])]

/-- Parsing a strictly decodable `final_decision` response. -/
theorem parse_fdObj (jl : String → Option JValue) (raw : String)
    (act sym : String) (q pr : Rat) (rat th : String)
    (h : jl raw = some (fdObj act sym q pr rat th)) :
    parseDecision jl raw =
      Except.ok ⟨JValue.jstr th, JValue.jstr "final_decision", fdParams act sym q pr rat⟩ := by
  unfold parseDecision decodeJson
  rw [h]
  simp [extractFields, fdObj, lookupA]

/-- Parsing a strictly decodable response choosing tool `tool`. -/
theorem parse_toolObj (jl : String → Option JValue) (raw : String)
    (tool : String) (p : JValue) (th : String)
    (h : jl raw = some (toolObj tool p th)) :
    parseDecision jl raw = Except.ok ⟨JValue.jstr th, JValue.jstr tool, p⟩ := by
  unfold parseDecision decodeJson
  rw [h]
  simp [extractFields, toolObj, lookupA]

/-- The insufficient-funds observation string. -/
def insufficientMsg (tv cash0 : Rat) : String :=
  "INSUFFICIENT FUNDS. Cannot execute BUY order of $" ++ fmtMoney tv ++
    " with only $" ++ fmtMoney cash0 ++ " available."

/-- C1: a BUY `final_decision` whose `quantity × target_price` exceeds
the cash read at cycle initialisation is never committed — the ledger
(transactions and cash cell included) is untouched, an observation
containing "INSUFFICIENT FUNDS" is appended to the history, and the
iteration ends in `continue`, so the reasoning loop goes on instead of
terminating. -/
theorem c1_insufficient_buy_not_committed (env : Env) (cash0 : Rat) (s : St)
    (raw th sym rat : String) (q pr : Rat)
    (helaps : env.elapsed s.i ≤ MAX_FUNCTION_RUNTIME)
    (hresp : env.responses s.i = some raw) (hne : raw ≠ "")
    (hjson : env.jloads raw = some (fdObj "BUY" sym q pr rat th))
    (hover : q * pr > cash0) :
    (iter2 env cash0 s).2 = StepKind.cont
    ∧ (iter2 env cash0 s).1.ledger = s.ledger
    ∧ (iter2 env cash0 s).1.history =
        s.history ++ "\nThought: " ++ th ++ "\nAction: final_decision\nObservation: " ++
          insufficientMsg (q * pr) cash0
    ∧ (∃ a b, (iter2 env cash0 s).1.history = a ++ "INSUFFICIENT FUNDS" ++ b)
    ∧ (∀ fuel, loop2 env cash0 (fuel + 1) s = loop2 env cash0 fuel (iter2 env cash0 s).1) := by
  have hnt : ¬ env.elapsed s.i > MAX_FUNCTION_RUNTIME := not_lt.mpr helaps
  have hu : upper "BUY" = "BUY" := rfl
  have hit : iter2 env cash0 s =
      ({ s with
          trace := s.trace ++ [Event.modelCall s.i]
          consec := 0
          history := s.history ++ "\nThought: " ++ th ++
            "\nAction: final_decision\nObservation: " ++ insufficientMsg (q * pr) cash0
          i := s.i + 1 }, StepKind.cont) := by
    unfold iter2
    rw [if_neg hnt, hresp]
    simp only [if_neg hne]
    rw [parse_fdObj env.jloads raw "BUY" sym q pr rat th hjson]
    unfold actOn handleFinal fdParams
    simp [truthy, isStr, upper, lookupA, pyFloat, pyStr, hu, insufficientMsg, hover,
      String.append_assoc]
  refine ⟨by rw [hit], by rw [hit], by rw [hit], ?_, ?_⟩
  · refine ⟨s.history ++ "\nThought: " ++ th ++ "\nAction: final_decision\nObservation: ",
      ". Cannot execute BUY order of $" ++ fmtMoney (q * pr) ++
        " with only $" ++ fmtMoney cash0 ++ " available.", ?_⟩
    rw [hit]
    show s.history ++ "\nThought: " ++ th ++ "\nAction: final_decision\nObservation: " ++
        insufficientMsg (q * pr) cash0 = _
    simp only [insufficientMsg]
    rw [show ("INSUFFICIENT FUNDS. Cannot execute BUY order of $" : String) =
        "INSUFFICIENT FUNDS" ++ ". Cannot execute BUY order of $" from rfl]
    simp only [String.append_assoc]
  · intro fuel
    rw [loop2, hit]

/-- Reading back a cell just written. -/
theorem lookupA_setAssoc (cells : List (String × JValue)) (k : String) (v : JValue) :
    lookupA (setAssoc cells k v) k = some v := by
  induction cells with
  | nil => simp [setAssoc, lookupA]
  | cons p t ih =>
    obtain ⟨k2, w⟩ := p
    by_cases h : k2 = k <;> simp [setAssoc, lookupA, h, ih]

/-- C2: a committed BUY (with sufficient funds) or SELL
`final_decision` appends exactly one transaction record to the ledger,
updates the cash cell of the ledger to the initial cash minus (BUY) or plus
(SELL) `quantity × target_price`, in that order, and then returns the
terminal success outcome. -/
theorem c2_commit_order (env : Env) (cash0 : Rat) (s : St)
    (raw th sym rat act : String) (q pr : Rat)
    (hact : (act = "BUY" ∧ q * pr ≤ cash0) ∨ act = "SELL")
    (helaps : env.elapsed s.i ≤ MAX_FUNCTION_RUNTIME)
    (hresp : env.responses s.i = some raw) (hne : raw ≠ "")
    (hjson : env.jloads raw = some (fdObj act sym q pr rat th)) :
    (iter2 env cash0 s).2 = StepKind.ret ("Investment cycle completed.", 200)
    ∧ (iter2 env cash0 s).1.ledger.transactions =
        s.ledger.transactions ++ [⟨JValue.jstr sym, act, q, pr, JValue.jstr rat⟩]
    ∧ lookupA (iter2 env cash0 s).1.ledger.cells CASH_ON_HAND_CELL =
        some (JValue.jnum (if act = "BUY" then cash0 - q * pr else cash0 + q * pr))
    ∧ (iter2 env cash0 s).1.trace = s.trace ++
        [Event.modelCall s.i,
          Event.txLogged ⟨JValue.jstr sym, act, q, pr, JValue.jstr rat⟩,
          Event.cellWrite CASH_ON_HAND_CELL
            (JValue.jnum (if act = "BUY" then cash0 - q * pr else cash0 + q * pr)),
          Event.committed act]
    ∧ (∀ fuel, loop2 env cash0 (fuel + 1) s =
        ((iter2 env cash0 s).1, Except.ok ("Investment cycle completed.", 200))) := by
  have hnt : ¬ env.elapsed s.i > MAX_FUNCTION_RUNTIME := not_lt.mpr helaps
  rcases hact with ⟨hb, hle⟩ | hs
  · subst hb
    have hu : upper "BUY" = "BUY" := rfl
    have hnb : ¬ (cash0 < q * pr) := not_lt.mpr hle
    have hit : iter2 env cash0 s =
        ({ s with
            ledger := { s.ledger with
                transactions := s.ledger.transactions ++
                  [⟨JValue.jstr sym, "BUY", q, pr, JValue.jstr rat⟩]
                cells := setAssoc s.ledger.cells CASH_ON_HAND_CELL
                  (JValue.jnum (cash0 - q * pr)) }
            consec := 0
            trace := s.trace ++ [Event.modelCall s.i,
              Event.txLogged ⟨JValue.jstr sym, "BUY", q, pr, JValue.jstr rat⟩,
              Event.cellWrite CASH_ON_HAND_CELL (JValue.jnum (cash0 - q * pr)),
              Event.committed "BUY"] },
          StepKind.ret ("Investment cycle completed.", 200)) := by
      unfold iter2
      rw [if_neg hnt, hresp]
      simp only [if_neg hne]
      rw [parse_fdObj env.jloads raw "BUY" sym q pr rat th hjson]
      unfold actOn handleFinal fdParams
      simp [truthy, isStr, upper, lookupA, pyFloat, pyStr, hu, hnb]
    refine ⟨by rw [hit], by rw [hit], ?_, by rw [hit]; simp, ?_⟩
    · rw [hit]
      simp [lookupA_setAssoc]
    · intro fuel
      rw [loop2, hit]
  · subst hs
    have hu : upper "SELL" = "SELL" := rfl
    have hit : iter2 env cash0 s =
        ({ s with
            ledger := { s.ledger with
                transactions := s.ledger.transactions ++
                  [⟨JValue.jstr sym, "SELL", q, pr, JValue.jstr rat⟩]
                cells := setAssoc s.ledger.cells CASH_ON_HAND_CELL
                  (JValue.jnum (cash0 + q * pr)) }
            consec := 0
            trace := s.trace ++ [Event.modelCall s.i,
              Event.txLogged ⟨JValue.jstr sym, "SELL", q, pr, JValue.jstr rat⟩,
              Event.cellWrite CASH_ON_HAND_CELL (JValue.jnum (cash0 + q * pr)),
              Event.committed "SELL"] },
          StepKind.ret ("Investment cycle completed.", 200)) := by
      unfold iter2
      rw [if_neg hnt, hresp]
      simp only [if_neg hne]
      rw [parse_fdObj env.jloads raw "SELL" sym q pr rat th hjson]
      unfold actOn handleFinal fdParams
      simp [truthy, isStr, upper, lookupA, pyFloat, pyStr, hu]
    refine ⟨by rw [hit], by rw [hit], ?_, by rw [hit]; simp, ?_⟩
    · rw [hit]
      simp [lookupA_setAssoc]
    · intro fuel
      rw [loop2, hit]

/-- The empty trace has no commit. -/
theorem commitFree_nil : commitFree [] := by
  intro e he
  cases he

/-- Commit-freedom is preserved by concatenation. -/
theorem commitFree_append {l1 l2 : List Event} (h1 : commitFree l1) (h2 : commitFree l2) :
    commitFree (l1 ++ l2) := by
  intro e he
  rcases List.mem_append.mp he with h | h
  · exact h1 e h
  · exact h2 e h

/-- A commit-free trace cannot end in a commit. -/
theorem commitFree_no_commit_end {l : List Event} (h : commitFree l)
    {pre : List Event} {a : String} (heq : l = pre ++ [Event.committed a]) : False := by
  have hm : Event.committed a ∈ l := by
    rw [heq]
    simp
  have := h _ hm
  simp [isCommit] at this

/-- Trace shape of the `final_decision` branch: it only ever appends a
commit-free prefix plus, exactly when it returns the committed
outcome, one final commit event. -/
theorem handleFinal_shape (cash0 : Rat) (s : St) (d : Parsed) :
    ∃ δ, (handleFinal cash0 s d).1.trace = s.trace ++ δ ∧
      (commitFree δ ∨
        ∃ δ0 a, δ = δ0 ++ [Event.committed a] ∧ commitFree δ0 ∧
          (handleFinal cash0 s d).2 =
            StepKind.ret ("Investment cycle completed.", 200)) := by
  obtain ⟨dth, dtn, dps⟩ := d
  cases dps with
  | jobj fs =>
    cases hv : (lookupA fs "action").getD (JValue.jstr "HOLD") with
    | jstr araw =>
      by_cases hbs : upper araw = "BUY" ∨ upper araw = "SELL"
      · cases hq : pyFloat ((lookupA fs "quantity").getD (JValue.jnum 0)) with
        | none =>
          exact ⟨[], by simp [handleFinal, hv, hbs, hq], Or.inl commitFree_nil⟩
        | some q =>
          cases hp : pyFloat ((lookupA fs "target_price").getD (JValue.jnum 0)) with
          | none =>
            exact ⟨[], by simp [handleFinal, hv, hbs, hq, hp], Or.inl commitFree_nil⟩
          | some pr =>
            by_cases hins : upper araw = "BUY" ∧ q * pr > cash0
            · exact ⟨[], by simp [handleFinal, hv, hbs, hq, hp, hins], Or.inl commitFree_nil⟩
            · refine ⟨[Event.txLogged ⟨(lookupA fs "symbol").getD JValue.jnull, upper araw, q, pr,
                  (lookupA fs "rationale").getD (JValue.jstr "No rationale provided.")⟩,
                Event.cellWrite CASH_ON_HAND_CELL
                  (JValue.jnum (if upper araw = "BUY" then cash0 - q * pr else cash0 + q * pr)),
                Event.committed (upper araw)],
                by simp [handleFinal, hv, hbs, hq, hp, hins],
                Or.inr ⟨[Event.txLogged _, Event.cellWrite _ _], upper araw, rfl, ?_,
                  by simp [handleFinal, hv, hbs, hq, hp, hins]⟩⟩
              intro e he
              rcases List.mem_pair.mp he with h | h <;> simp [h, isCommit]
      · exact ⟨[Event.committed (upper araw)], by simp [handleFinal, hv, hbs],
          Or.inr ⟨[], upper araw, by simp, commitFree_nil, by simp [handleFinal, hv, hbs]⟩⟩
    | jnull => exact ⟨[], by simp [handleFinal, hv], Or.inl commitFree_nil⟩
    | jbool b => exact ⟨[], by simp [handleFinal, hv], Or.inl commitFree_nil⟩
    | jnum n => exact ⟨[], by simp [handleFinal, hv], Or.inl commitFree_nil⟩
    | jarr xs => exact ⟨[], by simp [handleFinal, hv], Or.inl commitFree_nil⟩
    | jobj gs => exact ⟨[], by simp [handleFinal, hv], Or.inl commitFree_nil⟩
  | jnull => exact ⟨[], by simp [handleFinal], Or.inl commitFree_nil⟩
  | jbool b => exact ⟨[], by simp [handleFinal], Or.inl commitFree_nil⟩
  | jnum n => exact ⟨[], by simp [handleFinal], Or.inl commitFree_nil⟩
  | jstr t => exact ⟨[], by simp [handleFinal], Or.inl commitFree_nil⟩
  | jarr xs => exact ⟨[], by simp [handleFinal], Or.inl commitFree_nil⟩

/-- Trace shape of acting on a parsed decision. -/
theorem actOn_shape (env : Env) (cash0 : Rat) (s : St) (d : Parsed) :
    ∃ δ, (actOn env cash0 s d).1.trace = s.trace ++ δ ∧
      (commitFree δ ∨
        ∃ δ0 a, δ = δ0 ++ [Event.committed a] ∧ commitFree δ0 ∧
          (actOn env cash0 s d).2 =
            StepKind.ret ("Investment cycle completed.", 200)) := by
  unfold actOn
  split
  · exact ⟨[], by simp, Or.inl commitFree_nil⟩
  · split
    · exact ⟨[], by simp, Or.inl commitFree_nil⟩
    · split
      · exact handleFinal_shape cash0 s d
      · refine ⟨[Event.dispatched d.tool_name d.params], by simp, Or.inl ?_⟩
        intro e he
        rcases List.mem_singleton.mp he with h
        simp [h, isCommit]

/-- The error-handling helpers never touch the trace. -/
theorem respFail_trace (s : St) : (respFail s).1.trace = s.trace := by
  unfold respFail
  split <;> rfl

/-- The parse-error helper never touches the trace. -/
theorem parseFail_trace (s : St) : (parseFail s).1.trace = s.trace := by
  unfold parseFail
  split <;> rfl

/-- Trace shape of one full iteration: the model-call marker, then a
commit-free segment, except that a committed `final_decision` appends
one final commit event and returns the committed outcome. -/
theorem iter2_shape (env : Env) (cash0 : Rat) (s : St) :
    ∃ δ, (iter2 env cash0 s).1.trace = s.trace ++ δ ∧
      (commitFree δ ∨
        ∃ δ0 a, δ = δ0 ++ [Event.committed a] ∧ commitFree δ0 ∧
          (iter2 env cash0 s).2 =
            StepKind.ret ("Investment cycle completed.", 200)) := by
  have hmc : commitFree [Event.modelCall s.i] := by
    intro e he
    rcases List.mem_singleton.mp he with h
    simp [h, isCommit]
  unfold iter2
  split
  · exact ⟨[], by simp, Or.inl commitFree_nil⟩
  · split
    · refine ⟨[Event.modelCall s.i], ?_, Or.inl hmc⟩
      rw [respFail_trace]
    · split
      · refine ⟨[Event.modelCall s.i], ?_, Or.inl hmc⟩
        rw [respFail_trace]
      · split
        · refine ⟨[Event.modelCall s.i], ?_, Or.inl hmc⟩
          rw [parseFail_trace]
        · rename_i t d heq
          obtain ⟨δ, hδ, hcase⟩ := actOn_shape env cash0
            { s with trace := s.trace ++ [Event.modelCall s.i], consec := 0 } d
          refine ⟨Event.modelCall s.i :: δ, ?_, ?_⟩
          · rw [hδ]
            simp
          · rcases hcase with hfree | ⟨δ0, a, hδ0, hfree0, hret⟩
            · exact Or.inl (commitFree_append hmc hfree)
            · refine Or.inr ⟨Event.modelCall s.i :: δ0, a, by simp [hδ0], ?_, hret⟩
              exact commitFree_append hmc hfree0

/-- Loop invariant for the single-commit property: starting from a
commit-free trace, the cycle ends with a good trace, and whenever the
trace ends in a commit the outcome is the committed terminal one. -/
theorem loop2_commit_inv (env : Env) (cash0 : Rat) :
    ∀ fuel (s : St), commitFree s.trace →
      goodTrace (loop2 env cash0 fuel s).1.trace ∧
      (∀ pre a, (loop2 env cash0 fuel s).1.trace = pre ++ [Event.committed a] →
        (loop2 env cash0 fuel s).2 = Except.ok ("Investment cycle completed.", 200)) := by
  intro fuel
  induction fuel with
  | zero =>
    intro s hs
    refine ⟨Or.inl hs, ?_⟩
    intro pre a h
    exact absurd h (fun h => commitFree_no_commit_end hs h)
  | succ n ih =>
    intro s hs
    obtain ⟨δ, hδ, hcase⟩ := iter2_shape env cash0 s
    rcases hit : iter2 env cash0 s with ⟨s2, k⟩
    rw [hit] at hδ
    have hloop : loop2 env cash0 (n + 1) s =
        match (s2, k) with
        | (s2, StepKind.ret r) => (s2, Except.ok r)
        | (s2, StepKind.exn e) => (s2, Except.error e)
        | (s2, StepKind.brk) => (s2, Except.ok ("Cycle ended due to max steps.", 200))
        | (s2, StepKind.cont) => loop2 env cash0 n s2 := by
      rw [loop2, hit]
    rcases hcase with hfree | ⟨δ0, a, hδ0, hfree0, hret⟩
    · have hfree2 : commitFree s2.trace := by
        rw [hδ]
        exact commitFree_append hs hfree
      cases k with
      | ret r =>
        rw [hloop]
        refine ⟨Or.inl hfree2, ?_⟩
        intro pre a h
        exact absurd h (fun h => commitFree_no_commit_end hfree2 h)
      | exn e =>
        rw [hloop]
        refine ⟨Or.inl hfree2, ?_⟩
        intro pre a h
        exact absurd h (fun h => commitFree_no_commit_end hfree2 h)
      | brk =>
        rw [hloop]
        refine ⟨Or.inl hfree2, ?_⟩
        intro pre a h
        exact absurd h (fun h => commitFree_no_commit_end hfree2 h)
      | cont =>
        rw [hloop]
        exact ih s2 hfree2
    · rw [hit] at hret
      simp at hret
      subst hret
      rw [hloop]
      refine ⟨Or.inr ⟨s.trace ++ δ0, a, ?_, commitFree_append hs hfree0⟩, ?_⟩
      · rw [hδ, hδ0]
        simp
      · intro pre b h
        rfl

/-- C3: in every cycle at most one decision is committed, a commit is
the very last observable event of the cycle (no further model call,
dispatch or sheet mutation follows it), and a cycle whose trace ends
in a commit returned the terminal success outcome immediately. -/
theorem c3_single_commit_terminal (env : Env) (l0 : Ledger) :
    goodTrace (run2 env l0).st.trace
    ∧ (∀ pre a, (run2 env l0).st.trace = pre ++ [Event.committed a] →
        (run2 env l0).outcome = Except.ok ("Investment cycle completed.", 200)) := by
  unfold run2
  cases hc : initCash l0
  · refine ⟨Or.inl commitFree_nil, ?_⟩
    intro pre a h
    exact absurd h (fun h => commitFree_no_commit_end commitFree_nil h)
  · exact loop2_commit_inv env _ 6 _ commitFree_nil

/-- C4 (amended): when, after recording the current action signature,
the last 3 recorded signatures are all identical, the first-generation
orchestrator skips dispatching the action (ledger untouched, no
dispatch event), appends the loop-detected observation to the history,
and *continues* the reasoning loop to the next iteration. -/
theorem c4_repetition_guard_skips_dispatch (env : Env1) (cash0 : Rat) (s : St1) (d : Parsed)
    (hdec : getDecision1 env s.i = D1.dec d)
    (htool : truthy d.tool_name = true)
    (hlen : 3 ≤ (trimRecent (s.recent ++ [sig1 d])).length)
    (hsame : allSame (trimRecent (s.recent ++ [sig1 d])) = true) :
    iter1 env cash0 s =
      ({ s with
          trace := s.trace ++ [Event.modelCall s.i]
          recent := trimRecent (s.recent ++ [sig1 d])
          history := s.history ++ loopMsg
          i := s.i + 1 }, StepKind.cont)
    ∧ (∀ fuel, loop1 env cash0 (fuel + 1) s = loop1 env cash0 fuel (iter1 env cash0 s).1) := by
  have hit : iter1 env cash0 s =
      ({ s with
          trace := s.trace ++ [Event.modelCall s.i]
          recent := trimRecent (s.recent ++ [sig1 d])
          history := s.history ++ loopMsg
          i := s.i + 1 }, StepKind.cont) := by
    unfold iter1
    rw [hdec]
    unfold act1
    simp [htool, hlen, hsame]
  refine ⟨hit, ?_⟩
  intro fuel
  rw [loop1, hit]

/-- The decoded repeated `web_search` decision of the counterexample
cycle. -/
def c4dec : Parsed :=
  { thought := JValue.jstr "t"
    tool_name := JValue.jstr "web_search"
    params := JValue.jobj [("query", JValue.jstr "x")] }

/-- The raw model response of the counterexample cycle. -/
def c4resp : String :=
  "\x7b\"thought\": \"t\", \"action\": \x7b\"tool_name\": \"web_search\", \"parameters\": \x7b\"query\": \"x\"\x7d\x7d\x7d"

/-- Counterexample environment: the model returns the identical
`web_search` action on every step. -/
def c4env : Env1 :=
  { responses := fun _ => some c4resp
    jloads := fun t => if t = c4resp then some (toolObj "web_search"
      (JValue.jobj [("query", JValue.jstr "x")]) "t") else none
    websearch := fun _ => "results"
    visible := "[]" }

/-- Counterexample ledger: $100 cash on hand. -/
def c4ledger : Ledger := ⟨[(CASH_ON_HAND_CELL, JValue.jstr "100")], [], []⟩

/-- The repeated action signature of the counterexample cycle. -/
def c4sig : String := sig1 c4dec

/-- C4 (counterexample): with the model stuck on one identical action,
the recorded signature buffer holds 3 identical signatures from the
3rd step on, yet the cycle does not terminate with a HOLD outcome
there: all 5 model calls happen and the cycle ends with the max-steps
outcome.  (The repetition guard of lines 284-293 skips the dispatch
and continues; it does not terminate the cycle.) -/
theorem c4_counterexample :
    (run1 c4env c4ledger).st.recent = [c4sig, c4sig, c4sig]
    ∧ countCalls (run1 c4env c4ledger).st.trace = 5
    ∧ countDispatches (run1 c4env c4ledger).st.trace = 2
    ∧ (run1 c4env c4ledger).outcome = Except.ok ("Cycle ended due to max steps.", 200) := by
  refine ⟨?_, ?_, ?_, ?_⟩ <;> rfl

/-- A state two identical signatures deep, about to receive the third. -/
def c4wst : St1 := ⟨c4ledger, "", [c4sig, c4sig], 2, []⟩

/-- Witness for the amended C4 theorem at a concrete stuck cycle. -/
theorem c4_witness :
    (iter1 c4env 100 c4wst).2 = StepKind.cont
    ∧ (iter1 c4env 100 c4wst).1.ledger = c4wst.ledger
    ∧ (iter1 c4env 100 c4wst).1.history = c4wst.history ++ loopMsg
    ∧ (iter1 c4env 100 c4wst).1.trace = [Event.modelCall 2] := by
  have h := c4_repetition_guard_skips_dispatch c4env 100 c4wst c4dec rfl rfl
    (by decide) (by decide)
  refine ⟨?_, ?_, ?_, ?_⟩ <;> (rw [h.1]; try rfl)

/-- C5 (amended): at any iteration boundary where the elapsed time
strictly exceeds `MAX_FUNCTION_RUNTIME`, the cycle terminates
immediately (no model call) with the emergency-HOLD outcome and the
completed-cycle HTTP status, regardless of the current step index. -/
theorem c5_deadline_guard (env : Env) (cash0 : Rat) (s : St)
    (h : env.elapsed s.i > MAX_FUNCTION_RUNTIME) :
    iter2 env cash0 s = (s, StepKind.ret ("Emergency HOLD decision due to timeout.", 200))
    ∧ (∀ fuel, loop2 env cash0 (fuel + 1) s =
        (s, Except.ok ("Emergency HOLD decision due to timeout.", 200))) := by
  have hit : iter2 env cash0 s =
      (s, StepKind.ret ("Emergency HOLD decision due to timeout.", 200)) := by
    unfold iter2
    rw [if_pos h]
  exact ⟨hit, fun fuel => by rw [loop2, hit]⟩

/-- Raw model response committing a HOLD decision. -/
def c5resp : String :=
  "\x7b\"thought\": \"done\", \"action\": \x7b\"tool_name\": \"final_decision\", \"parameters\": \x7b\"action\": \"HOLD\", \"rationale\": \"ok\"\x7d\x7d\x7d"

/-- Decoded form of `c5resp`. -/
def c5obj : JValue :=
  JValue.jobj [("thought", JValue.jstr "done"),
    ("action", JValue.jobj [("tool_name", JValue.jstr "final_decision"),
      ("parameters", JValue.jobj [("action", JValue.jstr "HOLD"),
        ("rationale", JValue.jstr "ok")])])]

/-- Counterexample environment: the wall clock reads exactly the
540-second ceiling at every iteration boundary. -/
def c5env : Env :=
  { responses := fun _ => some c5resp
    jloads := fun t => if t = c5resp then some c5obj else none
    elapsed := fun _ => 540
    ext := fun _ _ => ExtRes.ok JValue.jnull }

/-- Counterexample ledger for the deadline boundary. -/
def c5ledger : Ledger := ⟨[(CASH_ON_HAND_CELL, JValue.jstr "100")], [], []⟩

/-- C5 (counterexample): with elapsed time exactly equal to the
configured ceiling at the iteration boundary (so `elapsed ≥ ceiling`
holds), the cycle does **not** terminate with the emergency-HOLD
outcome: the guard uses a strict comparison, a model call still
happens, and the cycle completes normally. -/
theorem c5_counterexample :
    c5env.elapsed 0 = MAX_FUNCTION_RUNTIME
    ∧ (run2 c5env c5ledger).outcome = Except.ok ("Investment cycle completed.", 200)
    ∧ countCalls (run2 c5env c5ledger).st.trace = 1 := by
  refine ⟨?_, ?_, ?_⟩ <;> rfl

/-- Environment one second past the deadline. -/
def c5wenv : Env :=
  { responses := fun _ => some c5resp
    jloads := fun t => if t = c5resp then some c5obj else none
    elapsed := fun _ => 541
    ext := fun _ _ => ExtRes.ok JValue.jnull }

/-- A mid-cycle state at step index 3. -/
def c5wst : St := ⟨c5ledger, "", 0, 3, []⟩

/-- Witness for the amended C5 theorem past the deadline. -/
theorem c5_witness :
    iter2 c5wenv 100 c5wst =
      (c5wst, StepKind.ret ("Emergency HOLD decision due to timeout.", 200)) :=
  (c5_deadline_guard c5wenv 100 c5wst (by norm_num [c5wenv, MAX_FUNCTION_RUNTIME])).1

/-- The `final_decision` branch never touches the error streak. -/
theorem handleFinal_consec (cash0 : Rat) (s : St) (d : Parsed) :
    (handleFinal cash0 s d).1.consec = s.consec := by
  obtain ⟨dth, dtn, dps⟩ := d
  cases dps with
  | jobj fs =>
    cases hv : (lookupA fs "action").getD (JValue.jstr "HOLD") with
    | jstr araw =>
      by_cases hbs : upper araw = "BUY" ∨ upper araw = "SELL"
      · cases hq : pyFloat ((lookupA fs "quantity").getD (JValue.jnum 0)) with
        | none => simp [handleFinal, hv, hbs, hq]
        | some q =>
          cases hp : pyFloat ((lookupA fs "target_price").getD (JValue.jnum 0)) with
          | none => simp [handleFinal, hv, hbs, hq, hp]
          | some pr =>
            by_cases hins : upper araw = "BUY" ∧ q * pr > cash0 <;>
              simp [handleFinal, hv, hbs, hq, hp, hins]
      · simp [handleFinal, hv, hbs]
    | jnull => simp [handleFinal, hv]
    | jbool b => simp [handleFinal, hv]
    | jnum n => simp [handleFinal, hv]
    | jarr xs => simp [handleFinal, hv]
    | jobj gs => simp [handleFinal, hv]
  | jnull => simp [handleFinal]
  | jbool b => simp [handleFinal]
  | jnum n => simp [handleFinal]
  | jstr t => simp [handleFinal]
  | jarr xs => simp [handleFinal]

/-- Acting on a parsed decision never touches the error streak. -/
theorem actOn_consec (env : Env) (cash0 : Rat) (s : St) (d : Parsed) :
    (actOn env cash0 s d).1.consec = s.consec := by
  unfold actOn
  by_cases h1 : truthy d.tool_name = false
  · simp [h1]
  · simp only [h1, if_false]
    by_cases h2 : 5 ≤ s.i ∧ isStr d.tool_name "final_decision" = false
    · simp [h2]
    · simp only [h2, if_false]
      by_cases h3 : isStr d.tool_name "final_decision" = true
      · simp [h3, handleFinal_consec]
      · simp [h3]

/-- C6: the consecutive-error counter increments on every model-call
failure (falsy response) and on every parse failure, resets to zero on
every successfully parsed decision, and the moment it reaches the
ceiling of 3 the cycle returns the corresponding emergency-HOLD
outcome instead of iterating further. -/
theorem c6_error_streak (env : Env) (cash0 : Rat) (s : St)
    (helaps : env.elapsed s.i ≤ MAX_FUNCTION_RUNTIME) :
    ((env.responses s.i = none ∨ env.responses s.i = some "") →
      ((3 ≤ s.consec + 1 → (iter2 env cash0 s).2 =
          StepKind.ret ("Emergency HOLD decision due to API errors.", 200))
        ∧ (s.consec + 1 < 3 → (iter2 env cash0 s).2 = StepKind.cont
            ∧ (iter2 env cash0 s).1.consec = s.consec + 1)))
    ∧ (∀ raw, env.responses s.i = some raw → raw ≠ "" →
        parseDecision env.jloads raw = Except.error () →
        ((3 ≤ s.consec + 1 → (iter2 env cash0 s).2 =
            StepKind.ret ("Emergency HOLD decision due to parsing errors.", 200))
          ∧ (s.consec + 1 < 3 → (iter2 env cash0 s).2 = StepKind.cont
              ∧ (iter2 env cash0 s).1.consec = s.consec + 1)))
    ∧ (∀ raw d, env.responses s.i = some raw → raw ≠ "" →
        parseDecision env.jloads raw = Except.ok d →
        (iter2 env cash0 s).1.consec = 0) := by
  have hnt : ¬ env.elapsed s.i > MAX_FUNCTION_RUNTIME := not_lt.mpr helaps
  refine ⟨?_, ?_, ?_⟩
  · intro hr
    have hit : iter2 env cash0 s =
        respFail { s with trace := s.trace ++ [Event.modelCall s.i] } := by
      unfold iter2
      rw [if_neg hnt]
      rcases hr with h | h <;> (rw [h]; try simp)
    constructor
    · intro h3
      rw [hit]
      unfold respFail
      rw [if_pos h3]
    · intro h3
      rw [hit]
      unfold respFail
      rw [if_neg (not_le.mpr h3)]
      exact ⟨rfl, rfl⟩
  · intro raw hr hne hperr
    have hit : iter2 env cash0 s =
        parseFail { s with trace := s.trace ++ [Event.modelCall s.i] } := by
      unfold iter2
      rw [if_neg hnt, hr]
      simp [hne, hperr]
    constructor
    · intro h3
      rw [hit]
      unfold parseFail
      rw [if_pos h3]
    · intro h3
      rw [hit]
      unfold parseFail
      rw [if_neg (not_le.mpr h3)]
      exact ⟨rfl, rfl⟩
  · intro raw d hr hne hpok
    have hit : iter2 env cash0 s =
        actOn env cash0 { s with trace := s.trace ++ [Event.modelCall s.i], consec := 0 } d := by
      unfold iter2
      rw [if_neg hnt, hr]
      simp [hne, hpok]
    rw [hit, actOn_consec]

/-- Environment whose model calls all fail. -/
def c6env : Env :=
  { responses := fun _ => none
    jloads := fun _ => none
    elapsed := fun _ => 0
    ext := fun _ _ => ExtRes.ok JValue.jnull }

/-- A state with an error streak of 2, one failure short of the ceiling. -/
def c6st : St := ⟨c5ledger, "", 2, 2, []⟩

/-- Witness for C6: the third consecutive failure terminates the cycle
with the emergency-HOLD outcome. -/
theorem c6_witness :
    (iter2 c6env 100 c6st).2 =
      StepKind.ret ("Emergency HOLD decision due to API errors.", 200) := by
  have h := c6_error_streak c6env 100 c6st (by decide)
  exact (h.1 (Or.inl rfl)).1 (by decide)

/-- C7: when the step index has reached the last step (index 5 of 6)
and the parsed tool is a chosen tool other than `final_decision`, the
cycle ends with the explicitly classified forced-HOLD outcome — not
with the unclassified max-steps outcome — and no dispatch happens. -/
theorem c7_forced_hold (env : Env) (cash0 : Rat) (s : St) (raw : String) (d : Parsed)
    (helaps : env.elapsed s.i ≤ MAX_FUNCTION_RUNTIME)
    (hresp : env.responses s.i = some raw) (hne : raw ≠ "")
    (hpok : parseDecision env.jloads raw = Except.ok d)
    (htool : truthy d.tool_name = true)
    (hnf : isStr d.tool_name "final_decision" = false)
    (hi : 5 ≤ s.i) :
    iter2 env cash0 s =
      ({ s with trace := s.trace ++ [Event.modelCall s.i], consec := 0 },
        StepKind.ret ("HOLD decision made - analysis complete.", 200))
    ∧ (∀ fuel, loop2 env cash0 (fuel + 1) s =
        ({ s with trace := s.trace ++ [Event.modelCall s.i], consec := 0 },
          Except.ok ("HOLD decision made - analysis complete.", 200))) := by
  have hnt : ¬ env.elapsed s.i > MAX_FUNCTION_RUNTIME := not_lt.mpr helaps
  have hit : iter2 env cash0 s =
      ({ s with trace := s.trace ++ [Event.modelCall s.i], consec := 0 },
        StepKind.ret ("HOLD decision made - analysis complete.", 200)) := by
    unfold iter2
    rw [if_neg hnt, hresp]
    simp only [if_neg hne]
    rw [hpok]
    unfold actOn
    simp [htool, hnf, hi]
  exact ⟨hit, fun fuel => by rw [loop2, hit]⟩

/-- Raw model response choosing a research tool. -/
def c7resp : String :=
  "\x7b\"thought\": \"t\", \"action\": \x7b\"tool_name\": \"web_search\", \"parameters\": \x7b\"query\": \"x\"\x7d\x7d\x7d"

/-- Environment whose model keeps researching instead of deciding. -/
def c7env : Env :=
  { responses := fun _ => some c7resp
    jloads := fun t => if t = c7resp then some (toolObj "web_search"
      (JValue.jobj [("query", JValue.jstr "x")]) "t") else none
    elapsed := fun _ => 0
    ext := fun _ _ => ExtRes.ok (JValue.jstr "results") }

/-- A state at the last reasoning step (index 5 of 6). -/
def c7st : St := ⟨c5ledger, "", 0, 5, []⟩

/-- Witness for C7 at the last step of a concrete cycle. -/
theorem c7_witness :
    (iter2 c7env 100 c7st).2 =
      StepKind.ret ("HOLD decision made - analysis complete.", 200) := by
  have h := c7_forced_hold c7env 100 c7st c7resp
    ⟨JValue.jstr "t", JValue.jstr "web_search", JValue.jobj [("query", JValue.jstr "x")]⟩
    (by decide) rfl (by decide)
    (parse_toolObj c7env.jloads c7resp "web_search"
      (JValue.jobj [("query", JValue.jstr "x")]) "t" rfl)
    rfl rfl (by decide)
  rw [h.1]

/-- C8: the parse pipeline tries strict decoding first, then
brace-matched fragment extraction, then signals a parse failure; it
fabricates no field values — a missing `thought` defaults to the fixed
placeholder, a missing `action` yields a null tool name — and the
orchestrator treats a null tool name as the agent declining to act,
breaking out and ending the cycle. -/
theorem c8_parse_contract (jl : String → Option JValue) (raw frag : String)
    (v : JValue) (fs : List (String × JValue)) :
    (jl raw = some v → parseDecision jl raw = extractFields v)
    ∧ (jl raw = none → extractFragment raw = some frag →
        parseDecision jl raw =
          (match jl frag with
            | some w => extractFields w
            | none => Except.error ()))
    ∧ (jl raw = none → extractFragment raw = none →
        parseDecision jl raw = Except.error ())
    ∧ (lookupA fs "thought" = none → ∀ d, extractFields (JValue.jobj fs) = Except.ok d →
        d.thought = JValue.jstr "No analysis provided")
    ∧ (lookupA fs "action" = none →
        extractFields (JValue.jobj fs) =
          Except.ok ⟨(lookupA fs "thought").getD (JValue.jstr "No analysis provided"),
            JValue.jnull, JValue.jobj []⟩)
    ∧ (∀ (env : Env) (cash0 : Rat) (s : St) (d : Parsed), truthy d.tool_name = false →
        actOn env cash0 s d = (s, StepKind.brk))
    ∧ (∀ (env : Env) (cash0 : Rat) (fuel : Nat) (s : St),
        (iter2 env cash0 s).2 = StepKind.brk →
        loop2 env cash0 (fuel + 1) s =
          ((iter2 env cash0 s).1, Except.ok ("Cycle ended due to max steps.", 200))) := by
  refine ⟨?_, ?_, ?_, ?_, ?_, ?_, ?_⟩
  · intro h
    unfold parseDecision decodeJson
    rw [h]
  · intro h hf
    unfold parseDecision decodeJson
    rw [h, hf]
  · intro h hf
    unfold parseDecision decodeJson
    rw [h, hf]
  · intro h d hd
    cases hact : (lookupA fs "action").getD (JValue.jobj []) with
    | jobj afs =>
      simp only [extractFields, hact] at hd
      injection hd with hd2
      subst hd2
      simp [h]
    | jnull => simp [extractFields, hact] at hd
    | jbool b => simp [extractFields, hact] at hd
    | jnum n => simp [extractFields, hact] at hd
    | jstr t => simp [extractFields, hact] at hd
    | jarr xs => simp [extractFields, hact] at hd
  · intro h
    simp [extractFields, h, lookupA]
  · intro env cash0 s d h
    unfold actOn
    simp [h]
  · intro env cash0 fuel s h
    rcases hit : iter2 env cash0 s with ⟨s2, k⟩
    rw [hit] at h
    simp at h
    subst h
    rw [loop2, hit]

/-- The embedded JSON fragment inside a noisy response. -/
def c8frag : String := "\x7b\"a\": 1\x7d"

/-- A raw response that is not strict JSON but embeds a fragment. -/
def c8raw : String := "noise \x7b\"a\": 1\x7d"

/-- A `json.loads` oracle that fails on the noisy text and decodes the
embedded fragment. -/
def c8jl : String → Option JValue :=
  fun t => if t = c8frag then some (JValue.jobj [("a", JValue.jnum 1)]) else none

/-- Witness for C8: the noisy response falls back to the embedded
fragment, and the missing `thought`/`action` fields default to the
placeholder and a null tool name. -/
theorem c8_witness :
    parseDecision c8jl c8raw =
      Except.ok ⟨JValue.jstr "No analysis provided", JValue.jnull, JValue.jobj []⟩ := by
  have h := (c8_parse_contract c8jl c8raw c8frag JValue.jnull []).2.1 rfl rfl
  rw [h]
  rfl

/-- C9: dispatching any non-terminal action (known or unknown tool,
any parameters, raising or returning handler) always yields an
observation that is coerced to a string in the history, and the
iteration always continues — no handler exception escapes the
dispatch boundary.  An unknown tool yields the `Unknown tool`
observation; a raising registered handler yields the
`Error executing` observation. -/
theorem c9_dispatch_always_observes (env : Env) (cash0 : Rat) (s : St)
    (raw : String) (d : Parsed)
    (helaps : env.elapsed s.i ≤ MAX_FUNCTION_RUNTIME)
    (hresp : env.responses s.i = some raw) (hne : raw ≠ "")
    (hpok : parseDecision env.jloads raw = Except.ok d)
    (htool : truthy d.tool_name = true)
    (hnf : isStr d.tool_name "final_decision" = false)
    (hi : s.i < 5) :
    (iter2 env cash0 s).2 = StepKind.cont
    ∧ (iter2 env cash0 s).1.history =
        s.history ++ "\nThought: " ++ pyStr d.thought ++ "\nAction: " ++ pyStr d.tool_name ++
          "\nObservation: " ++ pyStr (dispatchObs env s.ledger d.tool_name d.params).2
    ∧ (isRegistryTool d.tool_name = false →
        pyStr (dispatchObs env s.ledger d.tool_name d.params).2 =
          "Unknown tool \x27" ++ pyStr d.tool_name ++ "\x27.")
    ∧ (∀ tool, d.tool_name = JValue.jstr tool → registryKeys.contains tool = true →
        ∀ m, handlerRun env s.ledger tool d.params = Except.error m →
        pyStr (dispatchObs env s.ledger d.tool_name d.params).2 =
          "Error executing " ++ tool ++ ": " ++ m) := by
  have hnt : ¬ env.elapsed s.i > MAX_FUNCTION_RUNTIME := not_lt.mpr helaps
  have hn5 : ¬ 5 ≤ s.i := not_le.mpr hi
  have hit : iter2 env cash0 s =
      ({ s with
          ledger := (dispatchObs env s.ledger d.tool_name d.params).1
          trace := s.trace ++ [Event.modelCall s.i, Event.dispatched d.tool_name d.params]
          history := s.history ++ "\nThought: " ++ pyStr d.thought ++ "\nAction: " ++
            pyStr d.tool_name ++ "\nObservation: " ++
            pyStr (dispatchObs env s.ledger d.tool_name d.params).2
          consec := 0
          i := s.i + 1 }, StepKind.cont) := by
    unfold iter2
    rw [if_neg hnt, hresp]
    simp only [if_neg hne]
    rw [hpok]
    unfold actOn
    simp [htool, hn5, hnf]
  refine ⟨by rw [hit], by rw [hit], ?_, ?_⟩
  · intro h
    cases htn : d.tool_name with
    | jstr t =>
      rw [htn] at h
      simp only [isRegistryTool] at h
      have h2 : ¬ t ∈ registryKeys := by simpa using h
      simp [dispatchObs, h2, pyStr]
    | jnull => simp [dispatchObs, pyStr]
    | jbool b => simp [dispatchObs, pyStr]
    | jnum n => simp [dispatchObs, pyStr]
    | jarr xs => simp [dispatchObs, pyStr]
    | jobj gs => simp [dispatchObs, pyStr]
  · intro tool htn hreg m hrun
    rw [htn]
    simp only [dispatchObs, hreg, if_true]
    unfold dispatch2
    rw [hrun]
    simp [pyStr]

/-- Environment whose external tool handler raises. -/
def c9env : Env :=
  { responses := fun _ => some c7resp
    jloads := fun t => if t = c7resp then some (toolObj "web_search"
      (JValue.jobj [("query", JValue.jstr "x")]) "t") else none
    elapsed := fun _ => 0
    ext := fun _ _ => ExtRes.raise "boom" }

/-- Initial state for the raising-handler cycle. -/
def c9st : St := ⟨c5ledger, "", 0, 0, []⟩

/-- The parsed `web_search` decision of the raising-handler cycle. -/
def c9d : Parsed :=
  ⟨JValue.jstr "t", JValue.jstr "web_search", JValue.jobj [("query", JValue.jstr "x")]⟩

/-- Witness for C9: a raising handler is caught and becomes the
`Error executing` observation, and the loop continues. -/
theorem c9_witness :
    (iter2 c9env 100 c9st).2 = StepKind.cont
    ∧ pyStr (dispatchObs c9env c9st.ledger c9d.tool_name c9d.params).2 =
        "Error executing web_search: boom" := by
  have h := c9_dispatch_always_observes c9env 100 c9st c7resp c9d
    (by decide) rfl (by decide)
    (parse_toolObj c9env.jloads c7resp "web_search"
      (JValue.jobj [("query", JValue.jstr "x")]) "t" rfl)
    rfl rfl (by decide)
  refine ⟨h.1, ?_⟩
  have h4 := h.2.2.2 "web_search" rfl (by decide) "boom" rfl
  rw [h4]
  rfl

/-- C10: the funds-sufficiency check of a BUY `final_decision` compares
against the cash value read once at cycle initialisation (`cash0`),
regardless of what the cash cell of the ledger currently holds (`v`) — in
particular after mid-cycle `sheets_update_cell_value` writes to that
very cell — and a commit writes `cash0 - quantity × target_price`,
not a value derived from the current cell. -/
theorem c10_funds_check_uses_initial_cash (env : Env) (cash0 : Rat) (s : St)
    (raw th sym rat : String) (q pr : Rat) (v : JValue)
    (helaps : env.elapsed s.i ≤ MAX_FUNCTION_RUNTIME)
    (hresp : env.responses s.i = some raw) (hne : raw ≠ "")
    (hjson : env.jloads raw = some (fdObj "BUY" sym q pr rat th))
    (_hcell : lookupA s.ledger.cells CASH_ON_HAND_CELL = some v) :
    (q * pr > cash0 → (iter2 env cash0 s).2 = StepKind.cont
      ∧ (iter2 env cash0 s).1.ledger = s.ledger)
    ∧ (q * pr ≤ cash0 →
        (iter2 env cash0 s).2 = StepKind.ret ("Investment cycle completed.", 200)
        ∧ lookupA (iter2 env cash0 s).1.ledger.cells CASH_ON_HAND_CELL =
            some (JValue.jnum (cash0 - q * pr))) := by
  have hnt : ¬ env.elapsed s.i > MAX_FUNCTION_RUNTIME := not_lt.mpr helaps
  have hu : upper "BUY" = "BUY" := rfl
  constructor
  · intro hover
    have hit : iter2 env cash0 s =
        ({ s with
            trace := s.trace ++ [Event.modelCall s.i]
            consec := 0
            history := s.history ++ "\nThought: " ++ th ++
              "\nAction: final_decision\nObservation: " ++ insufficientMsg (q * pr) cash0
            i := s.i + 1 }, StepKind.cont) := by
      unfold iter2
      rw [if_neg hnt, hresp]
      simp only [if_neg hne]
      rw [parse_fdObj env.jloads raw "BUY" sym q pr rat th hjson]
      unfold actOn handleFinal fdParams
      simp [truthy, isStr, upper, lookupA, pyFloat, pyStr, hu, insufficientMsg, hover,
        String.append_assoc]
    exact ⟨by rw [hit], by rw [hit]⟩
  · intro hle
    have hnb : ¬ (cash0 < q * pr) := not_lt.mpr hle
    have hit : iter2 env cash0 s =
        ({ s with
            ledger := { s.ledger with
                transactions := s.ledger.transactions ++
                  [⟨JValue.jstr sym, "BUY", q, pr, JValue.jstr rat⟩]
                cells := setAssoc s.ledger.cells CASH_ON_HAND_CELL
                  (JValue.jnum (cash0 - q * pr)) }
            consec := 0
            trace := s.trace ++ [Event.modelCall s.i,
              Event.txLogged ⟨JValue.jstr sym, "BUY", q, pr, JValue.jstr rat⟩,
              Event.cellWrite CASH_ON_HAND_CELL (JValue.jnum (cash0 - q * pr)),
              Event.committed "BUY"] },
          StepKind.ret ("Investment cycle completed.", 200)) := by
      unfold iter2
      rw [if_neg hnt, hresp]
      simp only [if_neg hne]
      rw [parse_fdObj env.jloads raw "BUY" sym q pr rat th hjson]
      unfold actOn handleFinal fdParams
      simp [truthy, isStr, upper, lookupA, pyFloat, pyStr, hu, hnb]
    refine ⟨by rw [hit], ?_⟩
    rw [hit]
    simp [lookupA_setAssoc]

/-- Raw model response for a BUY of 10 shares at $50. -/
def c1raw : String :=
  "\x7b\"thought\": \"buy now\", \"action\": \x7b\"tool_name\": \"final_decision\", \"parameters\": \x7b\"action\": \"BUY\", \"symbol\": \"AAPL\", \"quantity\": 10, \"target_price\": 50, \"rationale\": \"growth\"\x7d\x7d\x7d"

/-- Environment committing that BUY. -/
def c1env : Env :=
  { responses := fun _ => some c1raw
    jloads := fun t => if t = c1raw then
      some (fdObj "BUY" "AAPL" 10 50 "growth" "buy now") else none
    elapsed := fun _ => 0
    ext := fun _ _ => ExtRes.ok JValue.jnull }

/-- Initial state with $100 cash. -/
def c1st : St := ⟨c5ledger, "", 0, 0, []⟩

set_option maxRecDepth 4000 in
/-- Witness for C1: cash 100, BUY 10 @ $50 (trade value 500) is
rejected, the ledger is untouched, and the observation contains
"INSUFFICIENT FUNDS". -/
theorem c1_witness :
    (iter2 c1env 100 c1st).2 = StepKind.cont
    ∧ (iter2 c1env 100 c1st).1.ledger = c1st.ledger
    ∧ (∃ a b, (iter2 c1env 100 c1st).1.history = a ++ "INSUFFICIENT FUNDS" ++ b) := by
  have h := c1_insufficient_buy_not_committed c1env 100 c1st c1raw "buy now" "AAPL" "growth"
    10 50 (by decide) rfl (by decide) rfl (by norm_num)
  exact ⟨h.1, h.2.1, h.2.2.2.1⟩

/-- Initial state with $10,000 cash. -/
def c2st : St := ⟨⟨[(CASH_ON_HAND_CELL, JValue.jstr "10000")], [], []⟩, "", 0, 0, []⟩

set_option maxRecDepth 4000 in
/-- Witness for C2: cash 10,000, BUY 10 @ $50 commits: one transaction
row, cash cell updated to 9,500, terminal success outcome. -/
theorem c2_witness :
    (iter2 c1env 10000 c2st).2 = StepKind.ret ("Investment cycle completed.", 200)
    ∧ (iter2 c1env 10000 c2st).1.ledger.transactions =
        [⟨JValue.jstr "AAPL", "BUY", 10, 50, JValue.jstr "growth"⟩]
    ∧ lookupA (iter2 c1env 10000 c2st).1.ledger.cells CASH_ON_HAND_CELL =
        some (JValue.jnum 9500) := by
  have h := c2_commit_order c1env 10000 c2st c1raw "buy now" "AAPL" "growth" "BUY" 10 50
    (Or.inl ⟨rfl, by norm_num⟩) (by decide) rfl (by decide) rfl
  refine ⟨h.1, ?_, ?_⟩
  · rw [h.2.1]
    rfl
  · rw [h.2.2.1]
    norm_num

/-- Witness for C3 on a concrete committed cycle: the trace is good
and ends in the HOLD commit, with the terminal success outcome. -/
theorem c3_witness :
    goodTrace (run2 c5env c5ledger).st.trace
    ∧ (run2 c5env c5ledger).outcome = Except.ok ("Investment cycle completed.", 200) := by
  have h := c3_single_commit_terminal c5env c5ledger
  exact ⟨h.1, h.2 [Event.modelCall 0] "HOLD" rfl⟩

/-- A mid-cycle state whose cash cell was overwritten to $1,000,000. -/
def c10st : St := ⟨⟨[(CASH_ON_HAND_CELL, JValue.jnum 1000000)], [], []⟩, "", 0, 1, []⟩

set_option maxRecDepth 4000 in
/-- Witness for C10: even with the cash cell holding $1,000,000, a BUY
worth $500 is rejected because the initial read was $100. -/
theorem c10_witness :
    lookupA c10st.ledger.cells CASH_ON_HAND_CELL = some (JValue.jnum 1000000)
    ∧ (iter2 c1env 100 c10st).2 = StepKind.cont
    ∧ (iter2 c1env 100 c10st).1.ledger = c10st.ledger := by
  have h := c10_funds_check_uses_initial_cash c1env 100 c10st c1raw "buy now" "AAPL"
    "growth" 10 50 (JValue.jnum 1000000) (by decide) rfl (by decide) rfl rfl
  exact ⟨rfl, (h.1 (by norm_num)).1, (h.1 (by norm_num)).2⟩
